import Mathlib

/-!
Verification development for the barcode scanner application (`app.py`).

The session state of the application (Streamlit `st.session_state`) is
modelled as an explicit record, and each state-mutating code path of the
source is embedded as a pure state-transition function:

* `scanOne`      — the body of the per-barcode loop in `BarcodeProcessor.recv`
                   (app.py lines 161-188): the three-way classification branch
                   together with its state updates;
* `recv`         — the whole `BarcodeProcessor.recv` pass, including the
                   wall-clock cooldown gate (lines 152-194);
* `load_barcodes_from_file` — the upload loader (lines 80-106), with the
                   pandas readers' default header handling made explicit;
* `handleUpload` — the caller of the loader in `main` (lines 215-221);
* `clearHistory` — the clear-history button handler (lines 237-240);
* `export_rows`  — the CSV export (lines 244-253), modelled at the level of
                   rows of cells;
* `progressMetric` — the statistics block (lines 321-330), with Python's
                   division-by-zero fault modelled by `Option`.

Wall-clock instants are modelled by rationals.
-/

/-- The transient scan status written to `st.session_state.scan_status`:
the strings `'success'`, `'duplicate'`, `'invalid'` of app.py. -/
inductive ScanStatus where
  | success
  | duplicate
  | invalid
deriving DecidableEq, Repr

/-- One entry of `st.session_state.scanned_barcodes`: the dict
`{'barcode': ..., 'timestamp': datetime.now(), 'status': 'Valid'}`
appended at app.py lines 169-173, with its keys in that order. -/
structure ScanRecord where
  barcode : String
  timestamp : ℚ
  status : String
deriving DecidableEq, Repr

/-- The Streamlit session state (app.py lines 47-58). -/
structure SessionState where
  valid_barcodes : Finset String
  scanned_barcodes : List ScanRecord
  last_scanned : Option String
  scan_status : Option ScanStatus
  file_uploaded : Bool
deriving DecidableEq

/-- The initial session state set up by `initialize_session_state`
(app.py lines 47-58): empty allow-list, empty history, no status, no file. -/
def SessionState.start : SessionState :=
  { valid_barcodes := ∅
    scanned_barcodes := []
    last_scanned := none
    scan_status := none
    file_uploaded := false }

/-- The pure classification outcome of the branch at app.py lines 165-188:
`success` when the barcode is in the allow-list and not among the already
scanned barcodes, `duplicate` when it is in the allow-list otherwise, and
`invalid` when it is not in the allow-list.  `scannedIds` stands for the
comprehension `[scan['barcode'] for scan in st.session_state.scanned_barcodes]`
of line 166. -/
def classify (valid : Finset String) (scannedIds : List String) (b : String) :
    ScanStatus :=
  if b ∈ valid ∧ b ∉ scannedIds then .success
  else if b ∈ valid then .duplicate
  else .invalid

/-- One iteration of the `for barcode_info in detected_barcodes` loop of
`BarcodeProcessor.recv` (app.py lines 161-188), restricted to its session
state effects: the three-way branch appends a record and/or overwrites
`scan_status` and `last_scanned`.  `now` is the wall clock at this pass,
used for the record's timestamp. -/
def scanOne (s : SessionState) (now : ℚ) (b : String) : SessionState :=
  if b ∈ s.valid_barcodes ∧ b ∉ s.scanned_barcodes.map ScanRecord.barcode then
    { s with
        scanned_barcodes := s.scanned_barcodes ++ [⟨b, now, "Valid"⟩]
        scan_status := some .success
        last_scanned := some b }
  else if b ∈ s.valid_barcodes then
    { s with scan_status := some .duplicate, last_scanned := some b }
  else
    { s with scan_status := some .invalid, last_scanned := some b }

theorem scanOne_valid_barcodes (s : SessionState) (now : ℚ) (b : String) :
    (scanOne s now b).valid_barcodes = s.valid_barcodes := by
  unfold scanOne
  split <;> first | rfl | (split <;> rfl)

theorem scanOne_file_uploaded (s : SessionState) (now : ℚ) (b : String) :
    (scanOne s now b).file_uploaded = s.file_uploaded := by
  unfold scanOne
  split <;> first | rfl | (split <;> rfl)

theorem scanOne_scan_status_eq_classify (s : SessionState) (now : ℚ) (b : String) :
    (scanOne s now b).scan_status =
      some (classify s.valid_barcodes (s.scanned_barcodes.map ScanRecord.barcode) b) := by
  unfold scanOne classify
  split <;> rename_i h
  · simp [h]
  · split <;> rename_i h2
    · simp [h, h2]
    · simp [h, h2]

/-- Claim C1: for every detected identifier string, the classification step
emits exactly one of three outcomes, determined solely by the two membership
tests: `success` ("Valid") when the identifier is in the allow-list and not
among the already-recorded identifiers, `duplicate` when it is in the
allow-list and already recorded, and `invalid` whenever it is not in the
allow-list, regardless of the contents of the scan history. -/
theorem classification_three_way (s : SessionState) (now : ℚ) (b : String) :
    (scanOne s now b).scan_status =
      some (classify s.valid_barcodes (s.scanned_barcodes.map ScanRecord.barcode) b) ∧
    (b ∈ s.valid_barcodes ∧ b ∉ s.scanned_barcodes.map ScanRecord.barcode →
      classify s.valid_barcodes (s.scanned_barcodes.map ScanRecord.barcode) b = .success) ∧
    (b ∈ s.valid_barcodes ∧ b ∈ s.scanned_barcodes.map ScanRecord.barcode →
      classify s.valid_barcodes (s.scanned_barcodes.map ScanRecord.barcode) b = .duplicate) ∧
    (b ∉ s.valid_barcodes →
      classify s.valid_barcodes (s.scanned_barcodes.map ScanRecord.barcode) b = .invalid) := by
  refine ⟨scanOne_scan_status_eq_classify s now b, ?_, ?_, ?_⟩
  · rintro ⟨hv, hn⟩
    simp [classify, hv, hn]
  · rintro ⟨hv, hi⟩
    simp [classify, hv, hi]
  · intro hv
    simp [classify, hv]

/-- Witness for C1 at concrete inputs: all three outcomes realised. -/
theorem classification_three_way_witness :
    classify {"A"} [] "A" = .success ∧
    classify {"A"} ["A"] "A" = .duplicate ∧
    classify {"A"} [] "B" = .invalid := by
  refine ⟨?_, ?_, ?_⟩
  · exact (classification_three_way ⟨{"A"}, [], none, none, false⟩ 0 "A").2.1
      (by decide)
  · exact (classification_three_way ⟨{"A"}, [⟨"A", 0, "Valid"⟩], none, none, false⟩
      0 "A").2.2.1 (by decide)
  · exact (classification_three_way ⟨{"A"}, [], none, none, false⟩ 0 "B").2.2.2
      (by decide)

theorem scanOne_of_already (st : SessionState) (t : ℚ) (b : String)
    (h1 : b ∈ st.valid_barcodes)
    (h2 : b ∈ st.scanned_barcodes.map ScanRecord.barcode) :
    scanOne st t b =
      { st with scan_status := some .duplicate, last_scanned := some b } := by
  unfold scanOne
  simp [h1, h2]

theorem scanOne_of_new (st : SessionState) (t : ℚ) (b : String)
    (h1 : b ∈ st.valid_barcodes)
    (h2 : b ∉ st.scanned_barcodes.map ScanRecord.barcode) :
    scanOne st t b =
      { st with
          scanned_barcodes := st.scanned_barcodes ++ [⟨b, t, "Valid"⟩]
          scan_status := some .success
          last_scanned := some b } := by
  unfold scanOne
  simp [h1, h2]

theorem iterate_scanOne_already (b : String) (later : ℚ) :
    ∀ (k : ℕ) (st : SessionState), b ∈ st.valid_barcodes →
      b ∈ st.scanned_barcodes.map ScanRecord.barcode →
      ((fun u => scanOne u later b)^[k] st).scanned_barcodes = st.scanned_barcodes ∧
      ((fun u => scanOne u later b)^[k] st).valid_barcodes = st.valid_barcodes ∧
      (k ≠ 0 → ((fun u => scanOne u later b)^[k] st).scan_status = some .duplicate) := by
  intro k
  induction k with
  | zero => intro st h1 h2; simp
  | succ n ih =>
    intro st h1 h2
    have hstep : scanOne st later b =
        { st with scan_status := some .duplicate, last_scanned := some b } :=
      scanOne_of_already st later b h1 h2
    have h1' : b ∈ (scanOne st later b).valid_barcodes := by rw [hstep]; exact h1
    have h2' : b ∈ (scanOne st later b).scanned_barcodes.map ScanRecord.barcode := by
      rw [hstep]; exact h2
    have ih' := ih (scanOne st later b) h1' h2'
    rw [Function.iterate_succ_apply]
    refine ⟨?_, ?_, fun _ => ?_⟩
    · rw [ih'.1, hstep]
    · rw [ih'.2.1, hstep]
    · rcases Nat.eq_zero_or_pos n with hn | hn
      · subst hn
        simp [hstep]
      · exact ih'.2.2 (Nat.pos_iff_ne_zero.mp hn)

/-- Claim C2: for an identifier in the allow-list, starting from a history
that does not contain it, the first classification returns `success` and
appends exactly one `Valid` record for it; every subsequent classification of
the same identifier (with the history unchanged otherwise) returns
`duplicate` and appends nothing. -/
theorem first_valid_then_duplicate (s : SessionState) (now later : ℚ) (b : String)
    (hv : b ∈ s.valid_barcodes)
    (hn : b ∉ s.scanned_barcodes.map ScanRecord.barcode) :
    (scanOne s now b).scan_status = some .success ∧
    (scanOne s now b).scanned_barcodes = s.scanned_barcodes ++ [⟨b, now, "Valid"⟩] ∧
    ∀ k : ℕ, k ≠ 0 →
      ((fun u => scanOne u later b)^[k] (scanOne s now b)).scan_status =
        some .duplicate ∧
      ((fun u => scanOne u later b)^[k] (scanOne s now b)).scanned_barcodes =
        (scanOne s now b).scanned_barcodes := by
  have hstep := scanOne_of_new s now b hv hn
  have h1 : b ∈ (scanOne s now b).valid_barcodes := by rw [hstep]; exact hv
  have h2 : b ∈ (scanOne s now b).scanned_barcodes.map ScanRecord.barcode := by
    rw [hstep]; simp
  refine ⟨by rw [hstep], by rw [hstep], fun k hk => ?_⟩
  have h := iterate_scanOne_already b later k (scanOne s now b) h1 h2
  exact ⟨h.2.2 hk, h.1⟩

/-- Witness for C2: with allow-list `{"A"}` and empty history, scanning `"A"`
at time 1 succeeds and appends its record, and one repeat at time 5 is a
duplicate that appends nothing. -/
theorem first_valid_then_duplicate_witness :
    (scanOne ⟨{"A"}, [], none, none, true⟩ 1 "A").scan_status = some .success ∧
    (scanOne ⟨{"A"}, [], none, none, true⟩ 1 "A").scanned_barcodes =
      [] ++ [⟨"A", 1, "Valid"⟩] ∧
    ((fun u => scanOne u 5 "A")^[1]
        (scanOne ⟨{"A"}, [], none, none, true⟩ 1 "A")).scan_status =
      some .duplicate ∧
    ((fun u => scanOne u 5 "A")^[1]
        (scanOne ⟨{"A"}, [], none, none, true⟩ 1 "A")).scanned_barcodes =
      (scanOne ⟨{"A"}, [], none, none, true⟩ 1 "A").scanned_barcodes := by
  have h := first_valid_then_duplicate ⟨{"A"}, [], none, none, true⟩ 1 5 "A"
    (by decide) (by decide)
  exact ⟨h.1, h.2.1, (h.2.2 1 (by decide)).1, (h.2.2 1 (by decide)).2⟩

/-- The clear-history button handler (app.py lines 237-240): empties the
scanned list and resets the transient status and last-scanned slots. -/
def clearHistory (s : SessionState) : SessionState :=
  { s with
      scanned_barcodes := []
      scan_status := none
      last_scanned := none }

/-- Claim C7: for every identifier that would now classify as `duplicate`
(that is, it previously classified as `success` and sits in the history),
clearing the history and then classifying that same identifier again yields
`success`: clearing resets the duplicate outcome. -/
theorem clear_resets_duplicate (s : SessionState) (now later : ℚ) (b : String)
    (h : (scanOne s now b).scan_status = some .duplicate) :
    (scanOne (clearHistory s) later b).scan_status = some .success := by
  have hb : b ∈ s.valid_barcodes := by
    by_contra hv
    unfold scanOne at h
    simp [hv] at h
  have hv' : b ∈ (clearHistory s).valid_barcodes := hb
  have hn' : b ∉ (clearHistory s).scanned_barcodes.map ScanRecord.barcode := by
    simp [clearHistory]
  rw [scanOne_of_new (clearHistory s) later b hv' hn']

/-- Witness for C7: `"A"` is a duplicate in a state that already recorded it;
after clearing, scanning `"A"` succeeds again. -/
theorem clear_resets_duplicate_witness :
    (scanOne ⟨{"A"}, [⟨"A", 1, "Valid"⟩], none, none, true⟩ 3 "A").scan_status =
      some .duplicate ∧
    (scanOne (clearHistory ⟨{"A"}, [⟨"A", 1, "Valid"⟩], none, none, true⟩)
        4 "A").scan_status = some .success := by
  refine ⟨by decide, ?_⟩
  exact clear_resets_duplicate ⟨{"A"}, [⟨"A", 1, "Valid"⟩], none, none, true⟩
    3 4 "A" (by decide)

/-- Claim C10: the clear-history action resets exactly three state fields —
the scan-record list to empty, the status slot to `none`, the last-scanned
identifier to `none` — and leaves the allow-list and the file-uploaded flag
unchanged. -/
theorem clear_history_frame (s : SessionState) :
    (clearHistory s).scanned_barcodes = [] ∧
    (clearHistory s).scan_status = none ∧
    (clearHistory s).last_scanned = none ∧
    (clearHistory s).valid_barcodes = s.valid_barcodes ∧
    (clearHistory s).file_uploaded = s.file_uploaded := by
  refine ⟨rfl, rfl, rfl, rfl, rfl⟩

/-- Python `str.endswith(suffix)` (used on the uploaded file's name at
app.py lines 84-86), on the character lists of the strings. -/
def pyEndsWith (s post : String) : Bool := post.data.isSuffixOf s.data

/-- Python `str.strip()`, the element-wise pandas `.str.strip()` of
app.py line 96: remove leading and trailing whitespace. -/
def pyStrip (s : String) : String :=
  ⟨((s.data.dropWhile Char.isWhitespace).reverse.dropWhile Char.isWhitespace).reverse⟩

/-- The `try` block of `load_barcodes_from_file` (app.py lines 82-102).
The uploaded file is abstracted to its name and the cells of its first
column, one per physical row in file order, `none` standing for a
missing/NaN cell.  `pd.read_csv` and `pd.read_excel` are called with
default arguments, so both consume the FIRST row of the file as the column
header: it never appears among the data rows of `df`, hence `rows` is split
into its head (the header) and the data rows below.  A file with no rows at
all makes the pandas reader itself raise (`EmptyDataError`); a file whose
only row is the header yields an empty `df`, caught by the `df.empty` check
(line 92).  Otherwise: take the first column, drop NaN cells, strip each
value, collect into a set and discard the empty string (lines 96-100). -/
def load_barcodes_from_file_core (fileName : String) (rows : List (Option String)) :
    Except String (Finset String) :=
  if pyEndsWith fileName ".csv" || pyEndsWith fileName ".xlsx"
      || pyEndsWith fileName ".xls" then
    match rows with
    | [] => .error "No columns to parse from file"
    | _hdr :: dataRows =>
      if dataRows = [] then .error "The uploaded file is empty."
      else .ok ((((dataRows.filterMap id).map pyStrip).toFinset).erase "")
  else .error "Unsupported file format. Please upload CSV or Excel file."

/-- `load_barcodes_from_file` (app.py lines 80-106): on success the barcode
set is returned with no error display; the `except` branch (lines 104-106)
shows the exception's message via `st.error` — the second component — and
returns the empty set. -/
def load_barcodes_from_file (fileName : String) (rows : List (Option String)) :
    Finset String × Option String :=
  match load_barcodes_from_file_core fileName rows with
  | .ok bset => (bset, none)
  | .error e => (∅, some e)

/-- The upload branch of `main` (app.py lines 215-221): load the file, and
only when the resulting set is non-empty (Python truthiness of
`if valid_barcodes:`) replace the allow-list and mark a file as uploaded. -/
def handleUpload (s : SessionState) (fileName : String)
    (rows : List (Option String)) : SessionState :=
  if (load_barcodes_from_file fileName rows).1 ≠ ∅ then
    { s with
        valid_barcodes := (load_barcodes_from_file fileName rows).1
        file_uploaded := true }
  else s

/-- Claim C4 counterexample: the first row of an uploaded file IS specially
treated.  For the CSV with first column `["HEADER", "A"]`, the row
`"HEADER"` is non-empty after trimming, yet the loader yields the allow-list
`{"A"}` and `"HEADER"` is not in it: the pandas reader consumed the first
row as the column header, so it never becomes an allow-list entry. -/
theorem first_row_is_header_counterexample :
    pyStrip "HEADER" ≠ "" ∧
    (load_barcodes_from_file "barcodes.csv" [some "HEADER", some "A"]).1 = {"A"} ∧
    "HEADER" ∉ (load_barcodes_from_file "barcodes.csv" [some "HEADER", some "A"]).1 := by
  refine ⟨by decide, by decide, by decide⟩

/-- Claim C4 (amended): the loader consumes the first row of the file as the
column header — its value is irrelevant and it never contributes an
allow-list entry — and an identifier is in the resulting allow-list exactly
when it is non-empty and is the stripped value of some data row below the
header. -/
theorem loader_first_row_consumed_as_header (f : String) (hdr hdr' : Option String)
    (dataRows : List (Option String)) (x : String)
    (hf : pyEndsWith f ".csv" = true ∨ pyEndsWith f ".xlsx" = true ∨
      pyEndsWith f ".xls" = true)
    (hne : dataRows ≠ []) :
    load_barcodes_from_file f (hdr :: dataRows) =
      load_barcodes_from_file f (hdr' :: dataRows) ∧
    (x ∈ (load_barcodes_from_file f (hdr :: dataRows)).1 ↔
      x ≠ "" ∧ ∃ c : String, some c ∈ dataRows ∧ pyStrip c = x) := by
  have hext : (pyEndsWith f ".csv" || pyEndsWith f ".xlsx"
      || pyEndsWith f ".xls") = true := by
    rcases hf with h | h | h <;> simp [h]
  have hcore : load_barcodes_from_file_core f (hdr :: dataRows) =
      .ok ((((dataRows.filterMap id).map pyStrip).toFinset).erase "") := by
    unfold load_barcodes_from_file_core
    rw [hext]
    simp [hne]
  have hload : load_barcodes_from_file f (hdr :: dataRows) =
      (((((dataRows.filterMap id).map pyStrip).toFinset).erase ""), none) := by
    unfold load_barcodes_from_file
    rw [hcore]
  constructor
  · rfl
  · rw [hload]
    simp only [Finset.mem_erase, List.mem_toFinset, List.mem_map,
      List.mem_filterMap, id]
    constructor
    · rintro ⟨hx, c, ⟨a, ha, rfl⟩, rfl⟩
      exact ⟨hx, c, ha, rfl⟩
    · rintro ⟨hx, c, hc, rfl⟩
      exact ⟨hx, c, ⟨some c, hc, rfl⟩, rfl⟩

/-- Witness for the amended C4: a concrete `.xlsx` upload whose header row
`"Code"` is ignored, while the stripped data value `"A"` is present. -/
theorem loader_first_row_consumed_as_header_witness :
    (pyEndsWith "b.xlsx" ".csv" = true ∨ pyEndsWith "b.xlsx" ".xlsx" = true ∨
      pyEndsWith "b.xlsx" ".xls" = true) ∧
    [some "  A "] ≠ ([] : List (Option String)) ∧
    load_barcodes_from_file "b.xlsx" [some "Code", some "  A "] =
      load_barcodes_from_file "b.xlsx" [none, some "  A "] ∧
    ("A" ∈ (load_barcodes_from_file "b.xlsx" [some "Code", some "  A "]).1 ↔
      "A" ≠ "" ∧ ∃ c : String, some c ∈ [some "  A "] ∧ pyStrip c = "A") := by
  refine ⟨by decide, by decide, ?_, ?_⟩
  · exact (loader_first_row_consumed_as_header "b.xlsx" (some "Code") none
      [some "  A "] "A" (by decide) (by decide)).1
  · exact (loader_first_row_consumed_as_header "b.xlsx" (some "Code") none
      [some "  A "] "A" (by decide) (by decide)).2

/-- Claim C5: a failed upload (unsupported format, empty file, or any other
reader error — every `error` outcome of the loader's `try` block) surfaces
its message through `st.error` and leaves the whole session state, in
particular the allow-list, exactly as it was. -/
theorem failed_upload_preserves_state (s : SessionState) (f : String)
    (rows : List (Option String)) (msg : String)
    (h : load_barcodes_from_file_core f rows = .error msg) :
    (load_barcodes_from_file f rows).2 = some msg ∧
    handleUpload s f rows = s := by
  constructor
  · simp [load_barcodes_from_file, h]
  · simp [handleUpload, load_barcodes_from_file, h]

/-- Witness for C5: uploading `notes.txt` fails with the unsupported-format
message and leaves a state with allow-list `{"Z"}` untouched. -/
theorem failed_upload_preserves_state_witness :
    (load_barcodes_from_file "notes.txt" [some "A"]).2 =
      some "Unsupported file format. Please upload CSV or Excel file." ∧
    handleUpload ⟨{"Z"}, [], none, none, true⟩ "notes.txt" [some "A"] =
      ⟨{"Z"}, [], none, none, true⟩ := by
  have h : load_barcodes_from_file_core "notes.txt" [some "A"] =
      .error "Unsupported file format. Please upload CSV or Excel file." := by
    rfl
  exact failed_upload_preserves_state ⟨{"Z"}, [], none, none, true⟩
    "notes.txt" [some "A"] _ h

/-- Python division of app.py line 323: raises `ZeroDivisionError` on a zero
denominator, modelled by `none`. -/
def pyDiv (a b : ℚ) : Option ℚ := if b = 0 then none else some (a / b)

/-- The progress metric of the statistics block (app.py line 323):
`progress = (total_scanned / total_valid) * 100 if total_valid > 0 else 0`,
with `total_valid = len(st.session_state.valid_barcodes)` and
`total_scanned = len(st.session_state.scanned_barcodes)`. -/
def progressMetric (s : SessionState) : Option ℚ :=
  if 0 < s.valid_barcodes.card then
    (pyDiv (s.scanned_barcodes.length : ℚ) (s.valid_barcodes.card : ℚ)).map
      (fun q => q * 100)
  else some 0

/-- Claim C6: the progress metric never faults — the division is guarded by
`total_valid > 0` — and equals `scanned_count / allow_list_size * 100` when
the allow-list is non-empty, and `0` when it is empty. -/
theorem progress_metric_guarded (s : SessionState) :
    (progressMetric s).isSome = true ∧
    (s.valid_barcodes ≠ ∅ →
      progressMetric s =
        some ((s.scanned_barcodes.length : ℚ) / (s.valid_barcodes.card : ℚ) * 100)) ∧
    (s.valid_barcodes = ∅ → progressMetric s = some 0) := by
  by_cases h : s.valid_barcodes = ∅
  · refine ⟨?_, fun hne => absurd h hne, fun _ => ?_⟩ <;>
      simp [progressMetric, h]
  · have hpos : 0 < s.valid_barcodes.card :=
      Finset.card_pos.mpr (Finset.nonempty_iff_ne_empty.mpr h)
    have hz : (s.valid_barcodes.card : ℚ) ≠ 0 := by
      exact_mod_cast Nat.pos_iff_ne_zero.mp hpos
    refine ⟨?_, fun _ => ?_, fun he => absurd he h⟩ <;>
      simp [progressMetric, hpos, pyDiv, hz]

/-- Witness for C6: one scanned out of two allowed gives `some 50`, and the
empty allow-list gives `some 0` (no fault in either case). -/
theorem progress_metric_guarded_witness :
    progressMetric ⟨{"A", "B"}, [⟨"A", 1, "Valid"⟩], none, none, true⟩ =
      some (((1 : ℚ) / 2) * 100) ∧
    progressMetric SessionState.start = some 0 := by
  constructor
  · have hcard : ({"A", "B"} : Finset String).card = 2 := by decide
    have h := (progress_metric_guarded
      ⟨{"A", "B"}, [⟨"A", 1, "Valid"⟩], none, none, true⟩).2.1 (by decide)
    rw [h]
    norm_num [hcard]
  · exact (progress_metric_guarded SessionState.start).2.2 rfl

/-- The CSV export (app.py lines 244-253), modelled at the level of rows of
cells.  `pd.DataFrame(st.session_state.scanned_barcodes)` orders its columns
by the insertion order of the record dicts' keys — `barcode`, `timestamp`,
`status` (app.py lines 169-173) — and `to_csv(index=False)` serializes one
header row naming the columns followed by one row per record, each row the
comma-joined cells in column order. -/
def export_rows (scans : List ScanRecord) : List (List String) :=
  ["barcode", "timestamp", "status"] ::
    scans.map fun r => [r.barcode, toString r.timestamp, r.status]

/-- Claim C3 counterexample: exporting the history
`[("A", t1, Valid), ("B", t2, Valid)]` does give one header row plus exactly
two data rows, but the column order is `barcode, timestamp, status` — the
identifier column comes FIRST, not the timestamp as the claim states. -/
theorem export_column_order_counterexample :
    export_rows [⟨"A", 1, "Valid"⟩, ⟨"B", 2, "Valid"⟩] =
      [["barcode", "timestamp", "status"],
       ["A", "1", "Valid"], ["B", "2", "Valid"]] ∧
    (export_rows [⟨"A", 1, "Valid"⟩, ⟨"B", 2, "Valid"⟩]).head? ≠
      some ["timestamp", "barcode", "status"] ∧
    ((export_rows [⟨"A", 1, "Valid"⟩, ⟨"B", 2, "Valid"⟩]).getD 1 []).head? ≠
      some (toString (1 : ℚ)) := by
  refine ⟨by decide, by decide, by decide⟩

/-- Claim C3 (amended): exporting a history of `n` records yields exactly one
header row followed by exactly `n` data rows, one per record in order, with
the columns in the order identifier (`barcode`), `timestamp`, `status`. -/
theorem export_shape (scans : List ScanRecord) :
    (export_rows scans).length = scans.length + 1 ∧
    (export_rows scans).head? = some ["barcode", "timestamp", "status"] ∧
    (export_rows scans).tail =
      scans.map (fun r => [r.barcode, toString r.timestamp, r.status]) := by
  refine ⟨by simp [export_rows], rfl, rfl⟩

/-- The per-stream processor object `BarcodeProcessor`
(app.py lines 147-150): the wall-clock time of the last processed scan and
the fixed scan cooldown. -/
structure BarcodeProcessor where
  last_scan_time : ℚ
  scan_cooldown : ℚ
deriving DecidableEq, Repr

/-- `BarcodeProcessor.__init__` (app.py lines 148-150):
`last_scan_time = 0`, `scan_cooldown = 2.0`. -/
def BarcodeProcessor.start : BarcodeProcessor :=
  { last_scan_time := 0, scan_cooldown := 2 }

/-- The `for barcode_info in detected_barcodes` loop of `recv`
(app.py lines 161-192), classifying each detected barcode in order against
the session state as updated so far.  The returned list records, in order,
one entry per classification invocation performed — the barcode together
with the outcome the branch assigns to `scan_status`. -/
def recvLoop (s : SessionState) (now : ℚ) :
    List String → SessionState × List (String × ScanStatus)
  | [] => (s, [])
  | b :: rest =>
    let ev := classify s.valid_barcodes (s.scanned_barcodes.map ScanRecord.barcode) b
    let r := recvLoop (scanOne s now b) now rest
    (r.1, (b, ev) :: r.2)

/-- One `BarcodeProcessor.recv` pass (app.py lines 152-194) at wall-clock
time `now`, `detected` being the decoded data of this frame's detections.
The cooldown gate (line 157) runs the loop only when more than
`scan_cooldown` has elapsed since `last_scan_time`.  Every loop iteration
assigns `self.last_scan_time = current_time` (lines 176, 182, 188); as the
assigned value is the same in every branch and iteration, it is applied here
once, exactly when the loop body ran at least once. -/
def recv (p : BarcodeProcessor) (s : SessionState) (now : ℚ)
    (detected : List String) :
    BarcodeProcessor × SessionState × List (String × ScanStatus) :=
  if now - p.last_scan_time > p.scan_cooldown then
    match detected with
    | [] => (p, s, [])
    | b :: rest =>
      let r := recvLoop s now (b :: rest)
      ({ p with last_scan_time := now }, r.1, r.2)
  else (p, s, [])

/-- A session of `recv` passes: each element of `frames` is the wall-clock
time of one pass paired with the barcodes detected in that frame.  Returns
the final processor and session state, and the log of passes, each paired
with the classification invocations it performed. -/
def runTrace (p : BarcodeProcessor) (s : SessionState) :
    List (ℚ × List String) →
      BarcodeProcessor × SessionState × List (ℚ × List (String × ScanStatus))
  | [] => (p, s, [])
  | (t, ds) :: rest =>
    let r := recv p s t ds
    let rt := runTrace r.1 r.2.1 rest
    (rt.1, rt.2.1, (t, r.2.2) :: rt.2.2)

/-- The wall-clock times of the individual classification invocations in a
log, in order, one entry per invocation: every invocation of a pass happens
at that pass's time. -/
def invocationTimes (log : List (ℚ × List (String × ScanStatus))) : List ℚ :=
  (log.map fun e => e.2.map fun _ => e.1).flatten

/-- The times of the passes that performed at least one classification
invocation. -/
def activePassTimes (log : List (ℚ × List (String × ScanStatus))) : List ℚ :=
  (log.filter fun e => !e.2.isEmpty).map Prod.fst

/-- Claim C9 counterexample: a single frame containing the two allow-listed
barcodes `"A"` and `"B"`, processed at time 10 by a fresh processor (cooldown
2), performs two classification invocations both at wall-clock time 10:
their separation is 0, less than the cooldown interval, so two
classification invocations from one source are not always separated by the
cooldown.  (The per-frame loop shares one cooldown timestamp across all
barcodes of the frame.) -/
theorem cooldown_per_invocation_counterexample :
    invocationTimes
        (runTrace BarcodeProcessor.start ⟨{"A", "B"}, [], none, none, true⟩
          [(10, ["A", "B"])]).2.2 = [10, 10] ∧
    ¬ (BarcodeProcessor.start.scan_cooldown ≤ (10 : ℚ) - 10) := by
  constructor
  · norm_num [invocationTimes, runTrace, recv, recvLoop, BarcodeProcessor.start]
    rfl
  · norm_num [BarcodeProcessor.start]

theorem runTrace_active_sep (c : ℚ) (hc : 0 ≤ c) :
    ∀ (frames : List (ℚ × List String)) (p : BarcodeProcessor) (s : SessionState),
      p.scan_cooldown = c →
      (∀ x ∈ activePassTimes (runTrace p s frames).2.2,
        p.last_scan_time + c < x) ∧
      (activePassTimes (runTrace p s frames).2.2).Pairwise
        (fun a b => a + c < b) := by
  intro frames
  induction frames with
  | nil =>
    intro p s _
    constructor
    · intro x hx
      simp [runTrace, activePassTimes] at hx
    · simp [runTrace, activePassTimes]
  | cons f rest ih =>
    obtain ⟨t, ds⟩ := f
    intro p s hpc
    by_cases hgate : t - p.last_scan_time > p.scan_cooldown
    · cases ds with
      | nil =>
        have hrecv : recv p s t [] = (p, s, []) := by
          simp [recv]
        have hact : activePassTimes (runTrace p s ((t, []) :: rest)).2.2 =
            activePassTimes (runTrace p s rest).2.2 := by
          simp [runTrace, hrecv, activePassTimes]
        rw [hact]
        exact ih p s hpc
      | cons b bs =>
        have hrecv : recv p s t (b :: bs) =
            ({ p with last_scan_time := t }, (recvLoop s t (b :: bs)).1,
              (recvLoop s t (b :: bs)).2) := by
          simp [recv, hgate]
        have hne : ((recvLoop s t (b :: bs)).2).isEmpty = false := by
          simp [recvLoop]
        have hact : activePassTimes (runTrace p s ((t, b :: bs) :: rest)).2.2 =
            t :: activePassTimes
              (runTrace { p with last_scan_time := t }
                (recvLoop s t (b :: bs)).1 rest).2.2 := by
          simp [runTrace, hrecv, activePassTimes, hne]
        rw [hact]
        obtain ⟨hall, hpw⟩ :=
          ih { p with last_scan_time := t } (recvLoop s t (b :: bs)).1 hpc
        rw [hpc] at hgate
        constructor
        · intro x hx
          rcases List.mem_cons.mp hx with hx | hx
          · subst hx
            linarith
          · have := hall x hx
            simp only at this
            linarith
        · exact List.Pairwise.cons (fun x hx => hall x hx) hpw
    · have hrecv : recv p s t ds = (p, s, []) := by
        simp [recv, hgate]
      have hact : activePassTimes (runTrace p s ((t, ds) :: rest)).2.2 =
          activePassTimes (runTrace p s rest).2.2 := by
        simp [runTrace, hrecv, activePassTimes]
      rw [hact]
      exact ih p s hpc

/-- Claim C9 (amended): the cooldown separates classification passes, not
individual invocations: for any sequence of `recv` passes, the wall-clock
times of any two passes in which the classifier was invoked at all differ by
more than the (nonnegative) cooldown.  All the invocations within one pass
happen at that single pass time, so invocations for distinct barcodes of one
frame are not separated (see the counterexample). -/
theorem cooldown_separates_passes (p : BarcodeProcessor) (s : SessionState)
    (frames : List (ℚ × List String)) (hc : 0 ≤ p.scan_cooldown) :
    (activePassTimes (runTrace p s frames).2.2).Pairwise
      (fun a b => a + p.scan_cooldown < b) :=
  (runTrace_active_sep p.scan_cooldown hc frames p s rfl).2

/-- Witness for the amended C9: passes at times 10, 11 and 13; those at 10
and 13 classify (11 is suppressed by the gate), and 10 + 2 < 13. -/
theorem cooldown_separates_passes_witness :
    (0 : ℚ) ≤ BarcodeProcessor.start.scan_cooldown ∧
    (activePassTimes
        (runTrace BarcodeProcessor.start ⟨{"A", "B"}, [], none, none, true⟩
          [(10, ["A"]), (11, ["B"]), (13, ["B"])]).2.2).Pairwise
      (fun a b => a + BarcodeProcessor.start.scan_cooldown < b) :=
  ⟨by norm_num [BarcodeProcessor.start],
    cooldown_separates_passes BarcodeProcessor.start
      ⟨{"A", "B"}, [], none, none, true⟩
      [(10, ["A"]), (11, ["B"]), (13, ["B"])]
      (by norm_num [BarcodeProcessor.start])⟩

theorem scanOne_records (s : SessionState) (now : ℚ) (b : String) :
    ∀ r ∈ (scanOne s now b).scanned_barcodes,
      r ∈ s.scanned_barcodes ∨ r.barcode ∈ s.valid_barcodes := by
  intro r hr
  unfold scanOne at hr
  split at hr
  · rename_i h
    rcases List.mem_append.mp hr with hr | hr
    · exact Or.inl hr
    · rw [List.mem_singleton] at hr
      subst hr
      exact Or.inr h.1
  · split at hr <;> exact Or.inl hr

theorem recvLoop_records :
    ∀ (ds : List String) (s : SessionState) (now : ℚ),
      ∀ r ∈ (recvLoop s now ds).1.scanned_barcodes,
        r ∈ s.scanned_barcodes ∨ r.barcode ∈ s.valid_barcodes := by
  intro ds
  induction ds with
  | nil =>
    intro s now r hr
    exact Or.inl hr
  | cons b rest ih =>
    intro s now r hr
    have hr' : r ∈ (recvLoop (scanOne s now b) now rest).1.scanned_barcodes := hr
    rcases ih (scanOne s now b) now r hr' with h | h
    · exact scanOne_records s now b r h
    · right
      rwa [scanOne_valid_barcodes] at h

theorem recv_records (p : BarcodeProcessor) (s : SessionState) (now : ℚ)
    (ds : List String) :
    ∀ r ∈ (recv p s now ds).2.1.scanned_barcodes,
      r ∈ s.scanned_barcodes ∨ r.barcode ∈ s.valid_barcodes := by
  intro r hr
  unfold recv at hr
  split at hr
  · cases ds with
    | nil => exact Or.inl hr
    | cons b bs => exact recvLoop_records (b :: bs) s now r hr
  · exact Or.inl hr

theorem handleUpload_scanned_barcodes (s : SessionState) (f : String)
    (rows : List (Option String)) :
    (handleUpload s f rows).scanned_barcodes = s.scanned_barcodes := by
  unfold handleUpload
  split <;> rfl

/-- Claim C8: every operation of the session respects the invariant that a
scan record is only ever appended for an identifier that is in the allow-list
at the moment of the append.  After `scanOne`, a whole `recv` pass,
`clearHistory` or `handleUpload`, every record in the scan list was either
already there before the operation, or (for the appending operations) names
an identifier in the pre-state's allow-list — the allow-list in force when
the record was created.  Replacing the allow-list (`handleUpload`) appends
nothing, so it may orphan old records without violating the invariant. -/
theorem records_were_allow_listed :
    (∀ (s : SessionState) (now : ℚ) (b : String),
      ∀ r ∈ (scanOne s now b).scanned_barcodes,
        r ∈ s.scanned_barcodes ∨ r.barcode ∈ s.valid_barcodes) ∧
    (∀ (p : BarcodeProcessor) (s : SessionState) (now : ℚ) (ds : List String),
      ∀ r ∈ (recv p s now ds).2.1.scanned_barcodes,
        r ∈ s.scanned_barcodes ∨ r.barcode ∈ s.valid_barcodes) ∧
    (∀ s : SessionState, ∀ r ∈ (clearHistory s).scanned_barcodes,
      r ∈ s.scanned_barcodes) ∧
    (∀ (s : SessionState) (f : String) (rows : List (Option String)),
      (handleUpload s f rows).scanned_barcodes = s.scanned_barcodes) := by
  refine ⟨scanOne_records, recv_records, ?_, handleUpload_scanned_barcodes⟩
  intro s r hr
  simp [clearHistory] at hr

/-- Witness for C8: the record appended by scanning `"A"` in a fresh state
with allow-list `{"A"}` satisfies the invariant's disjunction. -/
theorem records_were_allow_listed_witness :
    (⟨"A", 1, "Valid"⟩ : ScanRecord) ∈ ([] : List ScanRecord) ∨
      "A" ∈ ({"A"} : Finset String) :=
  records_were_allow_listed.1 ⟨{"A"}, [], none, none, true⟩ 1 "A"
    ⟨"A", 1, "Valid"⟩ (by decide)
